import Mathlib

/-!
Formal model of the scheduling, mixing and playback core of the
artificial voiceline playback system (`voice_system.py`), together with
theorems settling the specification claims.

Modelling conventions:
* Python floats are modelled as `ℚ`; Python `int()` (truncation toward
  zero) is `pyInt`; the VLC 0–100 clamp `max(0, min(100, ...))` is
  `clamp100`.
* An audio buffer (a pydub `AudioSegment`) is the list of its integer
  samples, `Buffer`.
* Exceptions raised by library calls are modelled as `Except.error`;
  code that can fail takes explicit boolean environment outcomes
  (file exists, decode succeeds, backend play succeeds, ...).
* The process-wide mutable attributes of `VoiceSystem` relevant to the
  scheduler, the radio player and the ducking fades are collected into
  `SysState`, and each method becomes a state-passing function.
  Threads are sequentialised: a worker thread is `threadAlive`, a
  `threading.Event` is the boolean `stopEvent`, and joining a worker
  whose interruptible wait has observed the stop event succeeds.
-/

namespace VoiceSys

/-- An audio buffer: the sequence of integer samples of a pydub
`AudioSegment`. -/
abbrev Buffer := List Int

/-- The `distortion_simulation` section of the configuration, as read by
`degrade_audio` (`voice_system.py` lines 62–71 and 87–228).  The numeric
tunables are consumed inside the individual degradation stages, which are
abstracted as `Stage` below; `enabled` is the only field the control flow
of `degrade_audio` itself inspects. -/
structure DistortionConfig where
  enabled : Bool
  sample_rate : Int
  distortion : ℚ
  filter_low : Int
  filter_high : Int
  noise_level : ℚ
  bit_depth : Int
  crackle : ℚ
  deriving Repr, DecidableEq

/-- One internal stage of the degradation pipeline of `degrade_audio`
(mono downmix, sample-rate reduction, nonlinear distortion, band-pass,
modulated noise, bit crush, crackle, final resample).  Each stage calls
into numpy / pydub and may raise; a raising stage is an `Except.error`. -/
abbrev Stage := Buffer → Except String Buffer

/-- The body of the `try:` block of `degrade_audio`: the stages run in
order on the working buffer, and the first exception aborts the rest of
the pipeline (it propagates to the enclosing `except` clauses). -/
def runStages : List Stage → Buffer → Except String Buffer
  | [], b => Except.ok b
  | st :: rest, b =>
    match st b with
    | Except.error e => Except.error e
    | Except.ok b2 => runStages rest b2

/-- Model of `degrade_audio(audio_segment, distortion_config)`
(`voice_system.py` lines 87–228): if the config is not enabled the input
is returned unchanged (lines 91–92); otherwise the stage pipeline runs
inside a `try:` whose `except ValueError` / `except Exception` clauses
both return the original `audio_segment` (lines 220–225). -/
def degrade_audio (distortion_config : DistortionConfig) (stages : List Stage)
    (audio_segment : Buffer) : Buffer :=
  if !distortion_config.enabled then audio_segment
  else
    match runStages stages audio_segment with
    | Except.ok degraded => degraded
    | Except.error _ => audio_segment

/-- Python `int()` applied to a (rational-valued) float: truncation
toward zero. -/
def pyInt (v : ℚ) : ℤ := if 0 ≤ v then ⌊v⌋ else ⌈v⌉

/-- The clamp `max(0, min(100, v))` into VLC's integer volume range. -/
def clamp100 (v : ℤ) : ℤ := max 0 (min 100 v)

/-- The scaling `max(0, min(100, int(v * 100)))` from a 0.0–1.0 config
volume to the VLC 0–100 integer scale, as used by `_fade_radio_volume`
(line 514), `start_radio` (line 665) and `update_settings` (line 1201). -/
def vlcScale (v : ℚ) : ℤ := clamp100 (pyInt (v * 100))

/-- The `volumes` section of the configuration (master / radio / ducking
/ voice multipliers), read fresh on each playback. -/
structure Volumes where
  master : ℚ
  radio : ℚ
  ducking : ℚ
  voice : ℚ
  deriving Repr, DecidableEq

/-- The process-wide mutable state of `VoiceSystem` relevant to the
scheduler, the radio player and the fades.
* `threadAlive = none` models `self._scheduler_thread is None`;
  `some b` a thread object whose `is_alive()` returns `b`.
* `stopEvent` is `self._stop_scheduler_event.is_set()`.
* `schedulerRunning` is `self._scheduler_running`.
* `spawns` instruments the number of `Thread.start()` calls ever made,
  to express that no second worker is created.
* `radioHandle` is `self.radio_player is not None`, `radioPlaying` its
  `is_playing()`, and `radioVolume` the backend's current 0–100 volume. -/
structure SysState where
  threadAlive : Option Bool
  stopEvent : Bool
  schedulerRunning : Bool
  spawns : Nat
  radioHandle : Bool
  radioPlaying : Bool
  radioVolume : ℤ
  deriving Repr, DecidableEq

/-- Number of live scheduler worker threads in a state (there is a single
thread slot, so this is 1 exactly when the tracked thread is alive). -/
def aliveWorkers (s : SysState) : Nat :=
  if s.threadAlive = some true then 1 else 0

/-- Model of `_fade_radio_volume(start_vol, end_vol, duration)` (lines
494–533).  If the player is absent or not in a playing/buffering state
the method returns without touching anything (lines 496–508).  Otherwise
it performs the stepped ramp — whose intermediate `audio_set_volume`
calls are all overwritten — and finally pins the exact scaled end volume
`end_vlc = max(0, min(100, int(end_vol * 100)))` (lines 514, 530), so the
post-state volume is `vlcScale end_vol`. -/
def fadeRadioVolume (s : SysState) (endVol : ℚ) : SysState :=
  if s.radioHandle && s.radioPlaying then
    { s with radioVolume := vlcScale endVol }
  else s

/-- Environment outcomes consumed by `start_radio`: whether
`_get_stream_url` resolves a stream URL, and whether the VLC
`player.play()` call succeeds. -/
structure RadioEnv where
  streamOk : Bool
  playOk : Bool
  deriving Repr, DecidableEq

/-- Model of `start_radio` (lines 621–699).  If a player exists and is
already playing/buffering it is a no-op success (lines 628–633);
otherwise any stale player is released, a stream URL is resolved (failure
returns `False` with no handle), a fresh player is created, its volume is
set to `max(0, min(100, int(config['volumes']['radio'] * 100)))` (line
665 — the radio volume alone, the master volume is not applied) and
playback is started; a `play()` failure releases the handle. -/
def start_radio (vols : Volumes) (env : RadioEnv) (s : SysState) :
    Bool × SysState :=
  if s.radioHandle && s.radioPlaying then
    (true, s)
  else
    let s0 : SysState := { s with radioHandle := false, radioPlaying := false }
    if !env.streamOk then (false, s0)
    else if !env.playOk then (false, s0)
    else
      (true, { s0 with
                radioHandle := true
                radioPlaying := true
                radioVolume := vlcScale vols.radio })

/-- Model of `stop_radio` (lines 702–730).  Without a player instance it
returns success at once; otherwise it stops (if playing) and always
releases the player and clears `self.radio_player`, returning success.
(The `except` clause that returns `False` on a VLC error during
stop/release raises nothing in this sequential model.) -/
def stop_radio (s : SysState) : Bool × SysState :=
  if !s.radioHandle then (true, s)
  else (true, { s with radioHandle := false, radioPlaying := false })

/-- Environment outcomes consumed by `play_audio`: the file check
`path.is_file()`, the decode `AudioSegment.from_file`, the effect /
compression / gain processing raising no exception, and the blocking
`play(audio)` raising no exception. -/
structure PlayEnv where
  fileExists : Bool
  decodeOk : Bool
  processOk : Bool
  playbackOk : Bool
  deriving Repr, DecidableEq

/-- The fade calls `_fade_radio_volume(start, end, ...)` made during one
`play_audio` call, as (start_vol, end_vol) pairs in call order. -/
abbrev FadeTrace := List (ℚ × ℚ)

/-- Model of `play_audio(filename)` (lines 733–810), returning the
(success, post-state, fade calls made) of one invocation.
* Missing file (lines 736–739) and decode failure (lines 746–753) return
  `False` before any ducking: no fade runs.
* An exception raised during processing (compression / gain, before the
  ducking step) lands in the handler at lines 801-810, which — when the
  radio is playing — fades `ducking → radio` even though no duck
  happened.
* Otherwise `radio_playing` is captured (line 780); if it holds the radio
  is faded `radio → ducking` (line 785), the processed clip is played
  (blocking, line 789), and on both the success path (lines 793–797) and
  the exception path (lines 805–809) the radio is faded `ducking → radio`. -/
def play_audio (vols : Volumes) (env : PlayEnv) (s : SysState) :
    Bool × SysState × FadeTrace :=
  if !env.fileExists then (false, s, [])
  else if !env.decodeOk then (false, s, [])
  else if !env.processOk then
    if s.radioHandle && s.radioPlaying then
      (false, fadeRadioVolume s vols.radio, [(vols.ducking, vols.radio)])
    else (false, s, [])
  else
    if s.radioHandle && s.radioPlaying then
      let s1 := fadeRadioVolume s vols.ducking
      if env.playbackOk then
        (true, fadeRadioVolume s1 vols.radio,
          [(vols.radio, vols.ducking), (vols.ducking, vols.radio)])
      else
        (false, fadeRadioVolume s1 vols.radio,
          [(vols.radio, vols.ducking), (vols.ducking, vols.radio)])
    else
      if env.playbackOk then (true, s, []) else (false, s, [])

/-- A voice line record (`{'id', 'text', 'filename', 'active'}`). -/
structure VoiceLine where
  id : Nat
  text : String
  filename : String
  active : Bool
  deriving Repr, DecidableEq

/-- The snapshot filter of the scheduler loop (lines 826–831): lines that
are active, have a truthy (non-empty) filename, and whose audio file
exists on disk (`fileExistsF`). -/
def activeLines (lines : List VoiceLine) (fileExistsF : String → Bool) :
    List VoiceLine :=
  lines.filter fun l => l.active && !l.filename.isEmpty && fileExistsF l.filename

/-- Model of `threading.Event.wait(t)` as used for the inter-iteration
waits (lines 875, 885): if the stop event is set the wait returns
immediately (elapsed time 0, result `True`); otherwise it sleeps the full
`t` seconds and returns `False`. -/
def eventWait (stopSet : Bool) (t : ℚ) : ℚ × Bool :=
  if stopSet then (0, true) else (t, false)

/-- Environment consumed by one scheduler loop iteration: the file
existence check for line snapshots, the index drawn by `random.choice`,
and the outcomes of the radio restart and of `play_audio`. -/
structure IterEnv where
  fileExistsF : String → Bool
  pick : Nat
  radioEnv : RadioEnv
  playEnv : PlayEnv

/-- Result of one scheduler loop iteration: the filename handed to
`play_audio` (`none` when the playback path is never invoked), the wait
used before the next iteration, the post-state, and the fades made. -/
structure IterResult where
  playedFile : Option String
  waitTime : ℚ
  state : SysState
  fades : FadeTrace

/-- Model of one iteration of the `while` body of `_scheduler_loop`
(lines 823–878).  The active-line snapshot is taken (lines 826–831); if
it is empty no playback happens and `wait_time = 30.0` (lines 833–836);
otherwise a line is chosen by `random.choice` (line 839), the radio is
restarted if it is not playing (lines 845–857), `play_audio` runs on the
chosen line's filename (line 861), and `wait_time = max(1.0, interval)`
(lines 868–869). -/
def scheduler_iteration (vols : Volumes) (interval : ℚ)
    (lines : List VoiceLine) (env : IterEnv) (s : SysState) : IterResult :=
  match activeLines lines env.fileExistsF with
  | [] => ⟨none, 30, s, []⟩
  | a :: rest =>
    let act := a :: rest
    let line := act.getD (env.pick % act.length) a
    let s1 := if s.radioHandle && s.radioPlaying then s
              else (start_radio vols env.radioEnv s).2
    let r := play_audio vols env.playEnv s1
    ⟨some line.filename, max 1 interval, r.2.1, r.2.2⟩

/-- Model of `start_scheduler` (lines 897–920).  If a thread object
exists and is alive it returns `False` ("Scheduler już działa") leaving
everything untouched (lines 899–901); otherwise the stop event is
cleared, a fresh worker thread is created and started (`spawns` grows by
one), and the worker's first actions set `_scheduler_running` (line 815),
so the post-sleep check reports success. -/
def start_scheduler (s : SysState) : Bool × SysState :=
  match s.threadAlive with
  | some true => (false, s)
  | _ =>
    (true, { s with
              threadAlive := some true
              stopEvent := false
              schedulerRunning := true
              spawns := s.spawns + 1 })

/-- Model of `stop_scheduler` (lines 923–951).  If no thread object
exists or the thread is dead, it records `running = False` and returns
success at once (lines 925–928, without clearing the thread object).
Otherwise the stop event is set and the thread is joined; the worker's
interruptible wait observes the event, the loop exits, the worker stops
the radio (lines 890–892) and clears the running flag, so the join
succeeds and the thread slot is cleared (lines 947–951). -/
def stop_scheduler (s : SysState) : Bool × SysState :=
  match s.threadAlive with
  | none => (true, { s with schedulerRunning := false })
  | some false => (true, { s with schedulerRunning := false })
  | some true =>
    (true, { s with
              threadAlive := none
              stopEvent := true
              schedulerRunning := false
              radioHandle := false
              radioPlaying := false })

/-- Re-indexing step of `remove_lines_sync` (lines 1143–1144):
`for new_idx, line in enumerate(lines_to_keep): line['id'] = new_idx + 1`,
generalised over the first index assigned. -/
def reindexFrom (n : Nat) : List VoiceLine → List VoiceLine
  | [] => []
  | l :: ls => { l with id := n } :: reindexFrom (n + 1) ls

/-- The non-id payload of a voice line, used to state that re-indexing
touches nothing but the ids. -/
def lineContent (l : VoiceLine) : String × String × Bool :=
  (l.text, l.filename, l.active)

/-- Model of `remove_lines_sync(ids_to_remove)` (lines 1097–1152): one
pass over `self.lines` keeps the lines whose id is not in
`ids_to_remove` and counts the removed ones; if at least one line was
removed the kept lines are re-indexed to 1, 2, ... and become the new
line list, otherwise the list is unchanged.  Returns the new list and the
removed count (the audio-file deletions and the sorted list of removed
ids also returned by the method are not part of the modelled state). -/
def remove_lines_sync (lines : List VoiceLine) (idsToRemove : List Nat) :
    List VoiceLine × Nat :=
  let kept := lines.filter fun l => !(idsToRemove.contains l.id)
  let removedCount := (lines.filter fun l => idsToRemove.contains l.id).length
  if 0 < removedCount then (reindexFrom 1 kept, removedCount)
  else (lines, 0)

/-! Sample concrete data used by the witness theorems. -/

/-- Sample distortion config with effects enabled (the defaults of
`DEFAULT_CONFIG['distortion_simulation']` with `enabled` flipped on). -/
def sampleDistortionOn : DistortionConfig :=
  ⟨true, 32000, 2/10000, 200, 4000, 1/10000, 16, 2/10000⟩

/-- Sample distortion config with effects disabled (the defaults). -/
def sampleDistortionOff : DistortionConfig :=
  ⟨false, 32000, 2/10000, 200, 4000, 1/10000, 16, 2/10000⟩

/-- A degradation stage that raises (any numpy / pydub exception). -/
def raisingStage : Stage := fun _ => Except.error "boom"

/-- A degradation stage that completes, doubling every sample. -/
def doublingStage : Stage := fun b => Except.ok (b.map (2 * ·))

/-- The default volume configuration of `DEFAULT_CONFIG['volumes']`. -/
def sampleVols : Volumes := ⟨1, 1/2, 1/10, 1⟩

/-- A state whose scheduler worker is alive and whose radio is playing at
the scaled normal radio volume of `sampleVols`. -/
def samplePlayingState : SysState :=
  ⟨some true, false, true, 1, true, true, 50⟩

/-- A state with no scheduler thread and no radio handle. -/
def sampleIdleState : SysState :=
  ⟨none, false, false, 0, false, false, 0⟩

/-- A sample iteration environment: every file exists, the random pick is
0, and the radio and playback backends succeed. -/
def sampleIterEnv : IterEnv :=
  ⟨fun _ => true, 0, ⟨true, true⟩, ⟨true, true, true, true⟩⟩

/-- An iteration environment whose file-existence check always fails. -/
def sampleNoFileEnv : IterEnv :=
  ⟨fun _ => false, 0, ⟨true, true⟩, ⟨true, true, true, true⟩⟩

/-- Three sample voice lines, the second one inactive. -/
def sampleLines : List VoiceLine :=
  [⟨1, "pierwsza", "line_1.mp3", true⟩,
   ⟨2, "druga", "line_2.mp3", false⟩,
   ⟨3, "trzecia", "line_3.mp3", true⟩]

/-! Claim theorems. -/

/-- Claim C1: for every input buffer and every effect configuration, if
any internal stage of `degrade_audio` raises an exception, the call still
returns the unmodified input buffer and never propagates the exception to
the caller (the `except` clauses at lines 220–225 return the original
`audio_segment` on any failure of the stage pipeline). -/
theorem degrade_audio_fail_open (cfg : DistortionConfig) (stages : List Stage)
    (buf : Buffer) (e : String)
    (h : runStages stages buf = Except.error e) :
    degrade_audio cfg stages buf = buf := by
  unfold degrade_audio
  cases hc : cfg.enabled <;> simp [hc, h]

/-- Witness for C1: a pipeline whose first stage raises, on the concrete
buffer `[1, 2, 3]` with effects enabled, returns the buffer unchanged. -/
theorem degrade_audio_fail_open_witness :
    runStages [raisingStage, doublingStage] [1, 2, 3] = Except.error "boom" ∧
    degrade_audio sampleDistortionOn [raisingStage, doublingStage] [1, 2, 3]
      = [1, 2, 3] :=
  ⟨rfl, degrade_audio_fail_open _ _ _ "boom" rfl⟩

/-- Claim C2: for every input buffer and every effect configuration whose
`enabled` flag is false, `degrade_audio` returns a buffer bit-identical
to its input (lines 91–92 return the input at once; `play_audio` lines
756–759 likewise skip the call entirely when not enabled). -/
theorem degrade_audio_disabled_identity (cfg : DistortionConfig)
    (stages : List Stage) (buf : Buffer) (h : cfg.enabled = false) :
    degrade_audio cfg stages buf = buf := by
  unfold degrade_audio
  simp [h]

/-- Witness for C2: with the disabled sample config and a pipeline that
would double every sample, the concrete buffer `[7, -8, 9]` is returned
bit-identical. -/
theorem degrade_audio_disabled_identity_witness :
    sampleDistortionOff.enabled = false ∧
    degrade_audio sampleDistortionOff [doublingStage] [7, -8, 9] = [7, -8, 9] :=
  ⟨rfl, degrade_audio_disabled_identity _ _ _ rfl⟩

/-- Claim C3: calling `start_scheduler` while the scheduler worker is
already running returns a failure ("Scheduler już działa", lines 899–901)
and does not create a second worker execution context — the state
(including the spawn counter and the set of live workers) is untouched,
and at most one worker is ever alive. -/
theorem start_scheduler_already_running (s : SysState)
    (h : s.threadAlive = some true) :
    start_scheduler s = (false, s) ∧
    aliveWorkers (start_scheduler s).2 = aliveWorkers s ∧
    (start_scheduler s).2.spawns = s.spawns ∧
    aliveWorkers s ≤ 1 := by
  have hs : start_scheduler s = (false, s) := by
    unfold start_scheduler
    rw [h]
  refine ⟨hs, by rw [hs], by rw [hs], ?_⟩
  unfold aliveWorkers
  split <;> simp

/-- Witness for C3: starting while `samplePlayingState`'s worker is alive
fails and changes nothing. -/
theorem start_scheduler_already_running_witness :
    samplePlayingState.threadAlive = some true ∧
    (start_scheduler samplePlayingState = (false, samplePlayingState) ∧
     aliveWorkers (start_scheduler samplePlayingState).2
       = aliveWorkers samplePlayingState ∧
     (start_scheduler samplePlayingState).2.spawns
       = samplePlayingState.spawns ∧
     aliveWorkers samplePlayingState ≤ 1) :=
  ⟨rfl, start_scheduler_already_running samplePlayingState rfl⟩

/-- Claim C4: in every scheduler loop iteration whose snapshot of lines
with `active == true` and an existing audio file is empty, the playback
path is never invoked (no file is played, no fade runs, the state is
untouched) and the worker waits the 30-second interval (lines 833–836),
a wait that returns early when the stop signal is set (line 875). -/
theorem scheduler_iteration_empty_idle (vols : Volumes) (interval : ℚ)
    (lines : List VoiceLine) (env : IterEnv) (s : SysState)
    (h : activeLines lines env.fileExistsF = []) :
    (scheduler_iteration vols interval lines env s).playedFile = none ∧
    (scheduler_iteration vols interval lines env s).waitTime = 30 ∧
    (scheduler_iteration vols interval lines env s).state = s ∧
    (scheduler_iteration vols interval lines env s).fades = [] ∧
    eventWait true (scheduler_iteration vols interval lines env s).waitTime
      = (0, true) ∧
    eventWait false (scheduler_iteration vols interval lines env s).waitTime
      = (30, false) := by
  unfold scheduler_iteration
  rw [h]
  exact ⟨rfl, rfl, rfl, rfl, rfl, rfl⟩

/-- Witness for C4: with the sample lines but a file-existence check that
always fails, the snapshot is empty, nothing is played and the wait is 30
seconds (early-exiting under a set stop signal). -/
theorem scheduler_iteration_empty_idle_witness :
    activeLines sampleLines sampleNoFileEnv.fileExistsF = [] ∧
    ((scheduler_iteration sampleVols 300 sampleLines sampleNoFileEnv
        samplePlayingState).playedFile = none ∧
     (scheduler_iteration sampleVols 300 sampleLines sampleNoFileEnv
        samplePlayingState).waitTime = 30 ∧
     (scheduler_iteration sampleVols 300 sampleLines sampleNoFileEnv
        samplePlayingState).state = samplePlayingState ∧
     (scheduler_iteration sampleVols 300 sampleLines sampleNoFileEnv
        samplePlayingState).fades = [] ∧
     eventWait true (scheduler_iteration sampleVols 300 sampleLines
        sampleNoFileEnv samplePlayingState).waitTime = (0, true) ∧
     eventWait false (scheduler_iteration sampleVols 300 sampleLines
        sampleNoFileEnv samplePlayingState).waitTime = (30, false)) :=
  ⟨rfl, scheduler_iteration_empty_idle sampleVols 300 sampleLines
    sampleNoFileEnv samplePlayingState rfl⟩

/-- Counterexample to C5 as stated: a call to `play_audio` during which
the radio was playing but whose audio file is missing returns failure
without performing any fade at all (the early return at lines 736–739
precedes the ducking logic), so "the background volume is faded back up
before the call returns … on every error path" is false as stated.  The
volume was also never ducked, so nothing is left at the ducked volume. -/
theorem play_audio_missing_file_no_fade :
    samplePlayingState.radioPlaying = true ∧
    play_audio sampleVols ⟨false, true, true, true⟩ samplePlayingState
      = (false, samplePlayingState, []) :=
  ⟨rfl, rfl⟩

/-- Claim C5 (amended): for every call to `play_audio` during which the
radio was playing, the final radio volume equals the scaled normal radio
volume whenever it did at entry — on the success path and on every error
path — so a failed playback never leaves the background track at the
ducked volume; and whenever the call progresses past effect processing
(the only paths on which ducking occurs), the fade back up
`ducking → radio` is performed before the call returns. -/
theorem play_audio_volume_restored (vols : Volumes) (env : PlayEnv)
    (s : SysState) (hh : s.radioHandle = true) (hp : s.radioPlaying = true)
    (hv : s.radioVolume = vlcScale vols.radio) :
    (play_audio vols env s).2.1.radioVolume = vlcScale vols.radio ∧
    (env.fileExists = true → env.decodeOk = true → env.processOk = true →
      (play_audio vols env s).2.2
        = [(vols.radio, vols.ducking), (vols.ducking, vols.radio)]) := by
  rcases env with ⟨fe, de, pr, pb⟩
  cases fe <;> cases de <;> cases pr <;> cases pb <;>
    simp [play_audio, fadeRadioVolume, hh, hp, hv]

/-- Witness for C5 (amended): a playback failure after ducking (backend
`play` raises) on `samplePlayingState` still ends at the normal scaled
radio volume, and the restore fade `ducking → radio` was performed. -/
theorem play_audio_volume_restored_witness :
    (samplePlayingState.radioHandle = true ∧
     samplePlayingState.radioPlaying = true ∧
     samplePlayingState.radioVolume = vlcScale sampleVols.radio) ∧
    ((play_audio sampleVols ⟨true, true, true, false⟩
        samplePlayingState).2.1.radioVolume = vlcScale sampleVols.radio ∧
     (PlayEnv.fileExists ⟨true, true, true, false⟩ = true →
      PlayEnv.decodeOk ⟨true, true, true, false⟩ = true →
      PlayEnv.processOk ⟨true, true, true, false⟩ = true →
      (play_audio sampleVols ⟨true, true, true, false⟩
        samplePlayingState).2.2
        = [(sampleVols.radio, sampleVols.ducking),
           (sampleVols.ducking, sampleVols.radio)])) :=
  ⟨⟨rfl, rfl, by norm_num [samplePlayingState, sampleVols, vlcScale, pyInt,
      clamp100]⟩,
   play_audio_volume_restored sampleVols ⟨true, true, true, false⟩
     samplePlayingState rfl rfl
     (by norm_num [samplePlayingState, sampleVols, vlcScale, pyInt, clamp100])⟩

/-- Re-indexing assigns the consecutive ids n, n+1, … down the list. -/
theorem reindexFrom_map_id (ls : List VoiceLine) (n : Nat) :
    (reindexFrom n ls).map (·.id) = List.range' n ls.length := by
  induction ls generalizing n with
  | nil => rfl
  | cons l ls ih =>
    simp only [reindexFrom, List.map_cons, ih, List.length_cons]
    rfl

/-- Re-indexing changes nothing but the ids. -/
theorem reindexFrom_map_content (ls : List VoiceLine) (n : Nat) :
    (reindexFrom n ls).map lineContent = ls.map lineContent := by
  induction ls generalizing n with
  | nil => rfl
  | cons l ls ih => simp [reindexFrom, lineContent, ih]

/-- Re-indexing preserves the length. -/
theorem reindexFrom_length (ls : List VoiceLine) (n : Nat) :
    (reindexFrom n ls).length = ls.length := by
  induction ls generalizing n with
  | nil => rfl
  | cons l ls ih => simp [reindexFrom, ih]

/-- Claim C6: for every line list with distinct ids and every removal
request that removes at least one existing line, `remove_lines_sync`
re-indexes the remaining lines to the dense id sequence 1..M (M = number
of remaining lines, `List.range' 1 M`) while preserving their relative
order (the sequence of non-id payloads is exactly that of the kept lines,
in order), and reports the number of removed lines. -/
theorem remove_lines_sync_reindexes (lines : List VoiceLine)
    (ids : List Nat) (_hnodup : (lines.map (·.id)).Nodup)
    (hrem : 0 < (lines.filter fun l => ids.contains l.id).length) :
    (remove_lines_sync lines ids).1.map (·.id)
      = List.range' 1 (remove_lines_sync lines ids).1.length ∧
    (remove_lines_sync lines ids).1.map lineContent
      = (lines.filter fun l => !(ids.contains l.id)).map lineContent ∧
    (remove_lines_sync lines ids).1.length
      = (lines.filter fun l => !(ids.contains l.id)).length ∧
    (remove_lines_sync lines ids).2
      = (lines.filter fun l => ids.contains l.id).length := by
  have hr : remove_lines_sync lines ids
      = (reindexFrom 1 (lines.filter fun l => !(ids.contains l.id)),
         (lines.filter fun l => ids.contains l.id).length) := by
    unfold remove_lines_sync
    rw [if_pos hrem]
  rw [hr]
  exact ⟨by rw [reindexFrom_map_id, reindexFrom_length],
         reindexFrom_map_content _ _,
         reindexFrom_length _ _, rfl⟩

/-- Witness for C6: removing the line with id 2 out of the three sample
lines re-indexes the remaining two lines to ids 1, 2 in order. -/
theorem remove_lines_sync_reindexes_witness :
    ((sampleLines.map (·.id)).Nodup ∧
     0 < (sampleLines.filter fun l => [2].contains l.id).length) ∧
    ((remove_lines_sync sampleLines [2]).1.map (·.id)
       = List.range' 1 (remove_lines_sync sampleLines [2]).1.length ∧
     (remove_lines_sync sampleLines [2]).1.map lineContent
       = (sampleLines.filter fun l => !([2].contains l.id)).map lineContent ∧
     (remove_lines_sync sampleLines [2]).1.length
       = (sampleLines.filter fun l => !([2].contains l.id)).length ∧
     (remove_lines_sync sampleLines [2]).2
       = (sampleLines.filter fun l => [2].contains l.id).length) :=
  ⟨⟨by decide, by decide⟩,
   remove_lines_sync_reindexes sampleLines [2] (by decide) (by decide)⟩

/-- Claim C7: calling stop twice in a row on the scheduler
(`stop_scheduler`) and on the radio player (`stop_radio`) returns success
both times, and leaves the scheduler not running and the radio player
with no active handle. -/
theorem stop_twice_idempotent (s : SysState) :
    (stop_scheduler s).1 = true ∧
    (stop_scheduler (stop_scheduler s).2).1 = true ∧
    (stop_scheduler (stop_scheduler s).2).2.schedulerRunning = false ∧
    (stop_radio s).1 = true ∧
    (stop_radio (stop_radio s).2).1 = true ∧
    (stop_radio (stop_radio s).2).2.radioHandle = false := by
  rcases s with ⟨ta, se, sr, sp, rh, rp, rv⟩
  rcases ta with _ | b
  · cases rh <;> simp [stop_scheduler, stop_radio]
  · cases b <;> cases rh <;> simp [stop_scheduler, stop_radio]

/-- A volume configuration with master volume 1/2 and radio volume 1/2,
separating `radio_volume` from `master_volume * radio_volume`. -/
def sampleHalfVols : Volumes := ⟨1/2, 1/2, 1/10, 1⟩

/-- Counterexample to C8 as stated: starting the radio from the idle
state with `master = 0.5, radio = 0.5` sets the handle's volume to
`int(radio * 100) = 50` (line 665 reads only `config['volumes']['radio']`),
not to the claimed `int(master * radio * 100) = 25`. -/
theorem start_radio_ignores_master_volume :
    (start_radio sampleHalfVols ⟨true, true⟩ sampleIdleState).2.radioVolume
      = 50 ∧
    vlcScale (sampleHalfVols.master * sampleHalfVols.radio) = 25 ∧
    (start_radio sampleHalfVols ⟨true, true⟩ sampleIdleState).2.radioVolume
      ≠ vlcScale (sampleHalfVols.master * sampleHalfVols.radio) := by
  refine ⟨?_, ?_, ?_⟩ <;>
    norm_num [start_radio, sampleHalfVols, sampleIdleState, vlcScale, pyInt,
      clamp100]

/-- Claim C8 (amended): whenever `start_radio` begins playback of a new
track (it is not a no-op on an already-playing player, a stream URL
resolves and the backend starts), the playback handle's volume is set to
`radio_volume` alone, scaled and clamped to the 0–100 integer scale;
`master_volume` is not applied. -/
theorem start_radio_sets_radio_volume (vols : Volumes) (env : RadioEnv)
    (s : SysState) (hnp : (s.radioHandle && s.radioPlaying) = false)
    (hstream : env.streamOk = true) (hplay : env.playOk = true) :
    (start_radio vols env s).1 = true ∧
    (start_radio vols env s).2.radioVolume = vlcScale vols.radio ∧
    (start_radio vols env s).2.radioPlaying = true := by
  simp [start_radio, hnp, hstream, hplay]

/-- Witness for C8 (amended): starting from the idle state with the
default volumes sets the handle's volume to `vlcScale 0.5 = 50`. -/
theorem start_radio_sets_radio_volume_witness :
    ((sampleIdleState.radioHandle && sampleIdleState.radioPlaying) = false ∧
     RadioEnv.streamOk ⟨true, true⟩ = true ∧
     RadioEnv.playOk ⟨true, true⟩ = true) ∧
    ((start_radio sampleVols ⟨true, true⟩ sampleIdleState).1 = true ∧
     (start_radio sampleVols ⟨true, true⟩ sampleIdleState).2.radioVolume
       = vlcScale sampleVols.radio ∧
     (start_radio sampleVols ⟨true, true⟩ sampleIdleState).2.radioPlaying
       = true) :=
  ⟨⟨rfl, rfl, rfl⟩,
   start_radio_sets_radio_volume sampleVols ⟨true, true⟩ sampleIdleState
     rfl rfl rfl⟩

/-- Claim C9: for every pair of volumes A, B in [0, 1], the sequence
`fade(A → B)` followed by `fade(B → A)` on a playing background player
leaves the final reported volume equal to A within ±1 on the 0–100
scale, because `_fade_radio_volume` pins the exact scaled end volume
`max(0, min(100, int(end_vol * 100)))` at the end of each fade (lines
514, 530). -/
theorem fade_round_trip (s : SysState) (A B : ℚ)
    (hh : s.radioHandle = true) (hp : s.radioPlaying = true)
    (h0 : 0 ≤ A) (h1 : A ≤ 1) :
    |((fadeRadioVolume (fadeRadioVolume s B) A).radioVolume : ℚ) - A * 100|
      ≤ 1 := by
  have hfinal : (fadeRadioVolume (fadeRadioVolume s B) A).radioVolume
      = vlcScale A := by
    simp [fadeRadioVolume, hh, hp]
  rw [hfinal]
  have hA0 : (0 : ℚ) ≤ A * 100 := by positivity
  have hA1 : A * 100 ≤ 100 := by nlinarith
  have hpy : pyInt (A * 100) = ⌊A * 100⌋ := by simp [pyInt, hA0]
  have hfl0 : (0 : ℤ) ≤ ⌊A * 100⌋ := Int.floor_nonneg.mpr hA0
  have hfl1 : ⌊A * 100⌋ ≤ 100 := by
    have h100 : ⌊(100 : ℚ)⌋ = 100 := by norm_num
    calc ⌊A * 100⌋ ≤ ⌊(100 : ℚ)⌋ := Int.floor_le_floor hA1
    _ = 100 := h100
  have hcl : clamp100 ⌊A * 100⌋ = ⌊A * 100⌋ := by
    unfold clamp100
    omega
  rw [vlcScale, hpy, hcl]
  have hle : (⌊A * 100⌋ : ℚ) ≤ A * 100 := Int.floor_le _
  have hlt : A * 100 < ⌊A * 100⌋ + 1 := Int.lt_floor_add_one _
  rw [abs_le]
  constructor <;> linarith

/-- Witness for C9: the round trip `fade(0.7 → 0.1)` then
`fade(0.1 → 0.7)` on the playing sample state ends within ±1 of 70. -/
theorem fade_round_trip_witness :
    (samplePlayingState.radioHandle = true ∧
     samplePlayingState.radioPlaying = true ∧
     (0 : ℚ) ≤ 7/10 ∧ (7/10 : ℚ) ≤ 1) ∧
    |((fadeRadioVolume (fadeRadioVolume samplePlayingState (1/10))
        (7/10)).radioVolume : ℚ) - (7/10) * 100| ≤ 1 :=
  ⟨⟨rfl, rfl, by norm_num, by norm_num⟩,
   fade_round_trip samplePlayingState (7/10) (1/10) rfl rfl
     (by norm_num) (by norm_num)⟩

/-- Claim C10: in every scheduler iteration that plays a line (the
active-line snapshot is nonempty), the inter-line wait used afterwards
is `max(1.0, interval)` (line 869), so the scheduler never waits less
than 1 second between playback attempts even when the configured
interval is 0 or negative. -/
theorem scheduler_iteration_min_wait (vols : Volumes) (interval : ℚ)
    (lines : List VoiceLine) (env : IterEnv) (s : SysState)
    (h : activeLines lines env.fileExistsF ≠ []) :
    (scheduler_iteration vols interval lines env s).waitTime
      = max 1 interval ∧
    1 ≤ (scheduler_iteration vols interval lines env s).waitTime ∧
    (scheduler_iteration vols interval lines env s).playedFile.isSome
      = true := by
  cases hact : activeLines lines env.fileExistsF with
  | nil => exact absurd hact h
  | cons a rest =>
    unfold scheduler_iteration
    rw [hact]
    refine ⟨rfl, ?_, rfl⟩
    show (1 : ℚ) ≤ max 1 interval
    exact le_max_left 1 interval

/-- Witness for C10: with the sample lines, every file present and a
configured interval of 0, a playing iteration still waits
`max(1, 0) = 1` second. -/
theorem scheduler_iteration_min_wait_witness :
    activeLines sampleLines sampleIterEnv.fileExistsF ≠ [] ∧
    ((scheduler_iteration sampleVols 0 sampleLines sampleIterEnv
        sampleIdleState).waitTime = max 1 0 ∧
     1 ≤ (scheduler_iteration sampleVols 0 sampleLines sampleIterEnv
        sampleIdleState).waitTime ∧
     (scheduler_iteration sampleVols 0 sampleLines sampleIterEnv
        sampleIdleState).playedFile.isSome = true) :=
  ⟨by decide,
   scheduler_iteration_min_wait sampleVols 0 sampleLines sampleIterEnv
     sampleIdleState (by decide)⟩

end VoiceSys
